import Mathlib

/-!
Verification of the dns-tic-tac-toe server: a shallow embedding of the
game engine (backend/pkg/game/engine.go), the session manager
(backend/pkg/game/session.go), the query grammar (pkg/dns/query.go) and
the DNS responder (pkg/dns/server.go, pkg/dns/responses.go), together
with theorems settling the specification claims about them.
-/

namespace TTT

/-- A tic-tac-toe player symbol, Go type `Player` restricted to its two
named constants `PlayerX = "X"` and `PlayerO = "O"`. -/
inductive Player where
  | X
  | O
deriving DecidableEq, Repr

/-- A board cell: a Go `Player` string value, which is either one of the
two symbols or the empty string `""` (modelled as `none`). -/
abbrev Cell := Option Player

/-- Game status, Go type `Status` (engine `types.go`). -/
inductive Status where
  | pending
  | playing
  | xWins
  | oWins
  | draw
deriving DecidableEq, Repr

/-- The 3x3 board `[3][3]Player`, indexed row then column. -/
abbrev Board := Fin 3 → Fin 3 → Cell

/-- The Go struct `GameState`. -/
structure GameState where
  board : Board
  turn : Player
  status : Status

instance : DecidableEq GameState := fun a b =>
  decidable_of_iff (a.board = b.board ∧ a.turn = b.turn ∧ a.status = b.status)
    (by cases a; cases b; simp)

/-- The all-empty board (every cell is the empty string). -/
def emptyBoard : Board := fun _ _ => none

/-- The initial game state built by `NewTicTacToe` (and by `Reset`):
empty board, turn X, status pending. -/
def initialState : GameState :=
  { board := emptyBoard, turn := Player.X, status := Status.pending }

/-- Embeds `StartGame`: set status to playing, but only if currently pending. -/
def startGame (s : GameState) : GameState :=
  if s.status = Status.pending then { s with status := Status.playing } else s

/-- The turn switch in `MakeMove`: `if g.state.Turn == PlayerX { ... PlayerO } else { ... PlayerX }`. -/
def otherPlayer : Player → Player
  | Player.X => Player.O
  | Player.O => Player.X

/-- Writing `player` into cell `(r, c)`: `g.state.Board[row][col] = player`. -/
def setCell (b : Board) (r c : Fin 3) (p : Player) : Board :=
  fun i j => if i = r ∧ j = c then some p else b i j

/-- Embeds `checkWin`: scan the three rows, the three columns, and the two
diagonals for three cells equal to `player`. -/
def checkWin (b : Board) (p : Player) : Bool :=
  decide (b 0 0 = some p ∧ b 0 1 = some p ∧ b 0 2 = some p) ||
  decide (b 1 0 = some p ∧ b 1 1 = some p ∧ b 1 2 = some p) ||
  decide (b 2 0 = some p ∧ b 2 1 = some p ∧ b 2 2 = some p) ||
  decide (b 0 0 = some p ∧ b 1 0 = some p ∧ b 2 0 = some p) ||
  decide (b 0 1 = some p ∧ b 1 1 = some p ∧ b 2 1 = some p) ||
  decide (b 0 2 = some p ∧ b 1 2 = some p ∧ b 2 2 = some p) ||
  decide (b 0 0 = some p ∧ b 1 1 = some p ∧ b 2 2 = some p) ||
  decide (b 0 2 = some p ∧ b 1 1 = some p ∧ b 2 0 = some p)

/-- Embeds `isBoardFull`: every cell is non-empty. -/
def isBoardFull (b : Board) : Bool :=
  decide (∀ i : Fin 3, ∀ j : Fin 3, b i j ≠ none)

/-- The game-error values of `pkg/game/errors.go`, with the data that the
constructors `NewGameOverError`, `NewWrongTurnError` and
`NewInvalidPositionError` interpolate into their messages. -/
inductive MoveError where
  | gameOver (status : Status)
  | wrongTurn (player turn : Player)
  | invalidPosition (row col : Int)
  | positionTaken
deriving DecidableEq, Repr

/-- The string form of a `Player` constant ("X" / "O"). -/
def playerString : Player → String
  | Player.X => "X"
  | Player.O => "O"

/-- The string form of a `Status` constant. -/
def statusString : Status → String
  | Status.pending => "pending"
  | Status.playing => "playing"
  | Status.xWins => "X_wins"
  | Status.oWins => "O_wins"
  | Status.draw => "draw"

/-- The `Error()` message of each game error, exactly as formatted in
`pkg/game/errors.go`. -/
def errorMessage : MoveError → String
  | MoveError.gameOver st => "game is over: " ++ statusString st
  | MoveError.wrongTurn p t =>
      "not " ++ playerString p ++ "'s turn (current turn: " ++ playerString t ++ ")"
  | MoveError.invalidPosition r c =>
      "invalid position: row=" ++ toString r ++ ", col=" ++ toString c ++ " (must be 0-2)"
  | MoveError.positionTaken => "position already taken"

/-- Embeds `MakeMove` from `pkg/game/engine.go`: the four precondition checks in
source order, then the cell write, win/draw detection and turn switch.
Go `int` indices are modelled as `Int`. -/
def makeMove (s : GameState) (row col : Int) (p : Player) : Except MoveError GameState :=
  if s.status ≠ Status.playing then
    Except.error (MoveError.gameOver s.status)
  else if p ≠ s.turn then
    Except.error (MoveError.wrongTurn p s.turn)
  else if h : row < 0 ∨ 3 ≤ row ∨ col < 0 ∨ 3 ≤ col then
    Except.error (MoveError.invalidPosition row col)
  else
    have hr : row.toNat < 3 := by omega
    have hc : col.toNat < 3 := by omega
    let r : Fin 3 := ⟨row.toNat, hr⟩
    let c : Fin 3 := ⟨col.toNat, hc⟩
    if s.board r c ≠ none then
      Except.error MoveError.positionTaken
    else
      let b2 := setCell s.board r c p
      if checkWin b2 p then
        Except.ok { board := b2, turn := s.turn,
                    status := if p = Player.X then Status.xWins else Status.oWins }
      else if isBoardFull b2 then
        Except.ok { board := b2, turn := s.turn, status := Status.draw }
      else
        Except.ok { board := b2, turn := otherPlayer s.turn, status := s.status }

/-! ## Session manager (backend/pkg/game/session.go) -/

/-- A session: the `Players` token map (modelled as an association list,
which the join path only ever extends with fresh keys) and the engine
state it owns. -/
structure Session where
  players : List (String × Player)
  game : GameState

/-- The session built by `CreateSession`: no players, fresh engine. -/
def newSession : Session :=
  { players := [], game := initialState }

/-- The token-uniqueness loop of `JoinSession`:

    for _, exists := s.Players[token]; exists; {
        token = GeneratePlayerToken(tokenLength)
    }

The loop condition is the `exists` flag bound once in the for-init
statement and never reassigned in the body, so it is threaded through
unchanged; `gen i` is the i-th draw of `GeneratePlayerToken` and `fuel`
bounds the iterations we unroll (`none` = still running after `fuel`
iterations). -/
def tokenLoopIter (existsFlag : Bool) (gen : Nat → String) (i fuel : Nat) (token : String) :
    Option String :=
  if existsFlag = false then some token
  else
    match fuel with
    | 0 => none
    | Nat.succ f => tokenLoopIter existsFlag gen (i + 1) f (gen i)

/-- The whole token generation of `JoinSession`: draw `gen 0`, bind the
`exists` flag from the single map lookup, then run the loop. -/
def joinTokenLoop (players : List (String × Player)) (gen : Nat → String) (fuel : Nat) :
    Option String :=
  let token0 := gen 0
  let existsFlag := (players.lookup token0).isSome
  tokenLoopIter existsFlag gen 1 fuel token0

/-- Embeds `JoinSession`: reject a full session, assign X to the first joiner
and O to the second, generate the token, insert it, and start the game
when the insert brings the player count to 2.  The outer `Option` is
`none` when the token loop fails to finish within `fuel` iterations. -/
def joinSessionOp (sess : Session) (gen : Nat → String) (fuel : Nat) :
    Option (Except String (Session × String × Player)) :=
  if 2 ≤ sess.players.length then
    some (Except.error "session is full (2 players already joined)")
  else
    let assigned := if sess.players.length = 0 then Player.X else Player.O
    match joinTokenLoop sess.players gen fuel with
    | none => none
    | some token =>
      let players2 := sess.players ++ [(token, assigned)]
      let game2 := if players2.length = 2 then startGame sess.game else sess.game
      some (Except.ok ({ players := players2, game := game2 }, token, assigned))

/-- One join attempt in a sequence: a successful join replaces the
session, any other outcome (full / still looping) leaves it unchanged. -/
def joinStep (s : Session) (g : (Nat → String) × Nat) : Session :=
  match joinSessionOp s g.1 g.2 with
  | some (Except.ok (s2, _, _)) => s2
  | _ => s

/-- A whole sequence of join operations against one session. -/
def joinMany (s : Session) (gens : List ((Nat → String) × Nat)) : Session :=
  gens.foldl joinStep s

/-! ## String primitives

The Go code works over ASCII byte strings with `strings.HasSuffix`,
`strings.TrimSuffix`, `strings.Split`, `strings.Join`,
`strings.Contains`, `strings.ToLower`, `strings.TrimSpace` and
`fmt.Sscanf("%d")`.  We model them over `String.data` character lists so
that everything evaluates inside the kernel. -/

/-- Embeds `strings.HasSuffix s t`. -/
def strEndsWith (s t : String) : Bool :=
  t.data.isSuffixOf s.data

/-- Embeds `strings.HasPrefix s t`. -/
def strStartsWith (s t : String) : Bool :=
  t.data.isPrefixOf s.data

/-- The qname normalization in `HandleRequest` / `parseQuery`: append a
trailing dot when missing. -/
def withTrailingDot (s : String) : String :=
  if strEndsWith s "." then s else s ++ "."

/-- Embeds `Zone.Normalize` (pkg/dns/query.go): append a trailing dot when the
zone is non-empty and its last byte is not a dot. -/
def zoneNormalize (z : String) : String :=
  if z.data = [] then z
  else if z.data.getLast? = some '.' then z
  else z ++ "."

/-- Embeds `strings.TrimSuffix s t`. -/
def strTrimSuffix (s t : String) : String :=
  if strEndsWith s t then ⟨s.data.take (s.data.length - t.data.length)⟩ else s

/-- Embeds `strings.Split` restricted to a one-character separator, over a
character list: `"a-b"` splits to `["a","b"]`, `""` to `[""]`. -/
def splitChar (sep : Char) : List Char → List (List Char)
  | [] => [[]]
  | c :: rest =>
    let r := splitChar sep rest
    if c = sep then [] :: r
    else
      match r with
      | [] => [[c]]
      | h :: t => (c :: h) :: t

/-- Embeds `strings.Split s (String.singleton sep)`. -/
def strSplit (s : String) (sep : Char) : List String :=
  (splitChar sep s.data).map fun l => ⟨l⟩

/-- Contiguous-substring test on character lists. -/
def listIsSubstring (pat : List Char) : List Char → Bool
  | [] => pat.isEmpty
  | c :: t => pat.isPrefixOf (c :: t) || listIsSubstring pat t

/-- Embeds `strings.Contains subdomain "-move-"`. -/
def containsMoveDash (s : String) : Bool :=
  listIsSubstring ("-move-".data) s.data

/-- Embeds `strings.ToLower` (the server only ever feeds it ASCII names). -/
def strToLower (s : String) : String :=
  ⟨s.data.map Char.toLower⟩

/-- Embeds `strings.TrimSpace`. -/
def strTrim (s : String) : String :=
  ⟨((s.data.dropWhile Char.isWhitespace).reverse.dropWhile Char.isWhitespace).reverse⟩

/-- Embeds `strings.Join parts sep`. -/
def strJoin (parts : List String) (sep : String) : String :=
  match parts with
  | [] => ""
  | h :: t => t.foldl (fun acc p => acc ++ sep ++ p) h

/-- Decimal value of a digit run. -/
def digitsToNat (l : List Char) : Nat :=
  l.foldl (fun acc c => acc * 10 + (c.toNat - 48)) 0

/-- Embeds `fmt.Sscanf(s, "%d", &n)`: an optional sign followed by at least one
decimal digit; trailing characters are ignored, no digits is an error. -/
def parseDecInt (s : String) : Option Int :=
  let p : Bool × List Char :=
    match s.data with
    | '-' :: rest => (true, rest)
    | '+' :: rest => (false, rest)
    | l => (false, l)
  let digits := p.2.takeWhile Char.isDigit
  if digits = [] then none
  else if p.1 then some (-(digitsToNat digits : Int))
  else some (digitsToNat digits : Int)

/-! ## Query grammar (pkg/dns/query.go) -/

/-- The `Command` constants. -/
inductive Command where
  | new
  | create
  | list
  | sessions
  | help
  | join
  | board
  | status
  | move
  | reset
  | json
  | unknown
deriving DecidableEq, Repr

/-- Embeds `Command.IsSessionManagement`. -/
def Command.isSessionManagement : Command → Bool
  | Command.new | Command.create | Command.list | Command.sessions | Command.help => true
  | _ => false

/-- Embeds `Command.IsGameCommand`. -/
def Command.isGameCommand : Command → Bool
  | Command.join | Command.board | Command.status | Command.move | Command.reset
  | Command.json => true
  | _ => false

/-- Embeds `ParseCommand`: lowercase and trim, then the keyword switch; any
other string starting with `move-` is a move, the rest are unknown.  The
switch maps both `new`/`create` to `CommandNew` and both
`list`/`sessions` to `CommandList`, and both `board`/`status` to
`CommandBoard`. -/
def parseCommand (cmdStr : String) : Command :=
  let c := strToLower (strTrim cmdStr)
  if c = "new" ∨ c = "create" then Command.new
  else if c = "list" ∨ c = "sessions" then Command.list
  else if c = "help" ∨ c = "" then Command.help
  else if c = "join" then Command.join
  else if c = "board" ∨ c = "status" then Command.board
  else if c = "reset" then Command.reset
  else if c = "json" then Command.json
  else if strStartsWith c "move-" then Command.move
  else Command.unknown

/-- Embeds `SessionID.IsValid`: length between 4 and 36. -/
def sessionIDIsValid (id : String) : Bool :=
  decide (4 ≤ id.data.length ∧ id.data.length ≤ 36)

/-- Embeds `MoveParams` (row and col are Go ints; `PlayerToken` is filled only
by `ParseMoveParams`, the dotted-form move parser). -/
structure MoveParams where
  row : Int
  col : Int
  playerToken : String
deriving DecidableEq, Repr

/-- Embeds `MoveParams.IsValid`: position-only check that row and col are in
[0,2] (token validation happens in the server). -/
def moveParamsIsValid (m : MoveParams) : Bool :=
  decide (0 ≤ m.row) && decide (m.row < 3) && decide (0 ≤ m.col) && decide (m.col < 3)

/-- Embeds `ParseMoveParams`: parses the dotted command string
`move-ROW-COL-TOKEN` into `MoveParams`, requiring exactly four
hyphen-separated fields, decimal row and col, a non-empty token, and
in-range positions. -/
def parseMoveParams (moveStr : String) : Except String MoveParams :=
  if strStartsWith moveStr "move-" = false then
    Except.error "invalid move format: must start with move-"
  else
    match strSplit moveStr '-' with
    | [_, rowStr, colStr, token] =>
      match parseDecInt rowStr with
      | none => Except.error "invalid row"
      | some row =>
        match parseDecInt colStr with
        | none => Except.error "invalid col"
        | some col =>
          if token.data.length = 0 then
            Except.error "invalid token: token cannot be empty"
          else
            let params : MoveParams := { row := row, col := col, playerToken := token }
            if moveParamsIsValid params = false then
              Except.error "invalid move parameters (must be 0-2)"
            else
              Except.ok params
    | _ => Except.error "invalid move format: expected move-ROW-COL-TOKEN"

/-- The parsed `Query` struct.  Go zero values: empty strings, nil
`MoveParams`. -/
structure Query where
  sessionID : String
  playerToken : String
  command : Command
  moveParams : Option MoveParams
  rawQuery : String
deriving DecidableEq, Repr

/-- Embeds `Query.IsSessionManagement`. -/
def queryIsSessionManagement (q : Query) : Bool :=
  q.sessionID = "" && q.command.isSessionManagement

/-- Embeds `Query.IsGameCommand`. -/
def queryIsGameCommand (q : Query) : Bool :=
  decide (q.sessionID ≠ "") && sessionIDIsValid q.sessionID && q.command.isGameCommand

/-- The dotted (Shape A) part of `parseSubdomain`: `{session-id}` alone
is a board view, `{session-id}.{command}` runs the keyword parser, and a
dotted move command additionally runs `ParseMoveParams` (keeping
`CommandMove` with nil params when it fails).  Invalid shapes fall back
to help. -/
def dottedParse (subdomain : String) (q0 : Query) : Query :=
  let parts := strSplit subdomain '.'
  if parts.length < 2 then
    if sessionIDIsValid subdomain then
      { q0 with sessionID := subdomain, command := Command.board }
    else
      { q0 with command := Command.help }
  else
    let sid := parts.headI
    if sessionIDIsValid sid = false then
      { q0 with command := Command.help }
    else
      let commandStr := strJoin (parts.drop 1) "."
      let cmd := parseCommand commandStr
      let q1 := { q0 with sessionID := sid, command := cmd }
      if cmd = Command.move then
        match parseMoveParams commandStr with
        | Except.ok mp => { q1 with moveParams := some mp }
        | Except.error _ => q1
      else
        q1

/-- Embeds `parseSubdomain`: session-management keywords first, then the
hyphen-separated Shape B move form (gated on a `-move-` substring, at
least five fields, `move` as the third field and a well-formed session
id — on this path the token goes into `Query.PlayerToken` and Sscanf
failures leave `MoveParams` nil), otherwise the dotted form. -/
def parseSubdomain (subdomain : String) : Query :=
  let q0 : Query := { sessionID := "", playerToken := "", command := Command.unknown,
                      moveParams := none, rawQuery := subdomain }
  let cmd := parseCommand subdomain
  if cmd.isSessionManagement then
    { q0 with command := cmd }
  else if containsMoveDash subdomain then
    let parts := strSplit subdomain '-'
    if 5 ≤ parts.length then
      let moveIdx := parts.findIdx fun p => p = "move"
      if moveIdx = 2 then
        let sid := parts.headI
        if sessionIDIsValid sid then
          let mp : Option MoveParams :=
            match parseDecInt (parts.getD 3 "") with
            | none => none
            | some row =>
              match parseDecInt (parts.getD 4 "") with
              | none => none
              | some col => some { row := row, col := col, playerToken := "" }
          { q0 with sessionID := sid, playerToken := parts.getD 1 "",
                    command := Command.move, moveParams := mp }
        else dottedParse subdomain q0
      else dottedParse subdomain q0
    else dottedParse subdomain q0
  else dottedParse subdomain q0

/-- Embeds `parseQuery`: reject qnames that do not end in the normalized zone,
strip the zone suffix and the final label dot, and parse the rest. -/
def parseQuery (zone : String) (qname : String) : Except String Query :=
  let zoneNorm := zoneNormalize zone
  let qnameNorm := withTrailingDot qname
  if strEndsWith qnameNorm zoneNorm = false then
    Except.error "zone mismatch"
  else
    let subdomain := strTrimSuffix (strTrimSuffix qnameNorm zoneNorm) "."
    Except.ok (parseSubdomain subdomain)

/-! ## Reply formatting (engine FormatBoard / GetState JSON and
pkg/dns/responses.go) -/

/-- Cell rendering in `FormatBoard`: `_` for empty, the symbol otherwise. -/
def cellDisplay : Cell → String
  | none => "_"
  | some p => playerString p

/-- One board row of `FormatBoard`, cells separated by single spaces. -/
def formatRow (b : Board) (i : Fin 3) : String :=
  cellDisplay (b i 0) ++ " " ++ cellDisplay (b i 1) ++ " " ++ cellDisplay (b i 2)

/-- Embeds `FormatBoard`: leading newline, the three rows, then the
`Turn: %s | Status: %s` line. -/
def formatBoard (s : GameState) : String :=
  "\n" ++ formatRow s.board 0 ++ "\n" ++ formatRow s.board 1 ++ "\n" ++
    formatRow s.board 2 ++ "\n" ++
    "Turn: " ++ playerString s.turn ++ " | Status: " ++ statusString s.status ++ "\n"

/-- JSON rendering of a cell (empty cell is the empty string). -/
def cellString : Cell → String
  | none => ""
  | some p => playerString p

/-- One JSON board row, as `encoding/json` renders `[3]Player`. -/
def jsonRow (b : Board) (i : Fin 3) : String :=
  "[\"" ++ cellString (b i 0) ++ "\",\"" ++ cellString (b i 1) ++ "\",\"" ++
    cellString (b i 2) ++ "\"]"

/-- Embeds `json.Marshal` of `GameState`: the struct fields in order under their
tags `board`, `turn`, `status`. -/
def stateJSON (s : GameState) : String :=
  "\x7b\"board\":[" ++ jsonRow s.board 0 ++ "," ++ jsonRow s.board 1 ++ "," ++
    jsonRow s.board 2 ++ "],\"turn\":\"" ++ playerString s.turn ++ "\",\"status\":\"" ++
    statusString s.status ++ "\"\x7d"

/-- Embeds `WriteJSONWithSession`: the engine state, with the status forced to
pending when fewer than 2 players have joined, marshalled to JSON. -/
def writeJSONWithSession (sess : Session) : String :=
  let state := sess.game
  let state2 :=
    if sess.players.length < 2 then { state with status := Status.pending } else state
  stateJSON state2

/-- Embeds `NewInvalidMoveFormatError`'s message. -/
def invalidMoveFormatMsg (format : String) : String :=
  "invalid move format: " ++ format ++
    ". Use: \x7bsession-id\x7d-\x7btoken\x7d-move-ROW-COL (e.g., abc123-xyz78901-move-1-1)"

/-- Embeds `WriteBoardWithMessage` payload: session line, message line, board. -/
def boardWithMessageText (sessionID message : String) (g : GameState) : String :=
  "Session: " ++ sessionID ++ "\n" ++ message ++ "\n" ++ formatBoard g

/-- Embeds `WriteBoard` payload. -/
def boardText (sessionID : String) (g : GameState) : String :=
  "Session: " ++ sessionID ++ "\n" ++ formatBoard g

/-- Embeds `WriteSessionCreated` payload. -/
def sessionCreatedText (sessionID zone : String) : String :=
  let z := strTrimSuffix zone "."
  "New session created!\nSession ID: " ++ sessionID ++
    "\n\nUse this ID in your queries:\n- " ++ sessionID ++ ".board." ++ z ++
    "\n- " ++ sessionID ++ ".move-1-2-X." ++ z ++
    "\n- " ++ sessionID ++ ".reset." ++ z

/-- Embeds `WriteSessionList` payload. -/
def sessionListText (sessions : List String) (zone : String) : String :=
  let z := strTrimSuffix zone "."
  if sessions.length = 0 then
    "No active sessions. Create one with: new." ++ z
  else
    "Active sessions (" ++ toString sessions.length ++ "):\n" ++ strJoin sessions "\n"

/-- Embeds `WriteJoinSuccess` payload. -/
def joinSuccessText (sessionID token : String) (player : Player) (zone : String) : String :=
  let z := strTrimSuffix zone "."
  "Joined session: " ++ sessionID ++ "\nPlayer Token: " ++ token ++
    "\nYou are playing as: " ++ playerString player ++
    "\n\nUse your token to make moves:\n" ++ sessionID ++ "-" ++ token ++
    "-move-ROW-COL." ++ z ++ "\n\nExample: " ++ sessionID ++ "-" ++ token ++
    "-move-1-1." ++ z

/-- Embeds `WriteHelp` payload. -/
def helpText (zone : String) : String :=
  let z := strTrimSuffix zone "."
  "DNS Tic-Tac-Toe Commands:\n\nSession Management:\n- new." ++ z ++
    " - Create a new game session\n- list." ++ z ++
    " - List all active sessions\n\nGame Commands (replace \x7bsession-id\x7d with your session ID, \x7btoken\x7d with your player token):\n- \x7bsession-id\x7d.join." ++ z ++
    " - Join a session and get your player token\n- \x7bsession-id\x7d.board." ++ z ++
    " - View current board\n- \x7bsession-id\x7d-\x7btoken\x7d-move-ROW-COL." ++ z ++
    " - Make a move using your token\n- \x7bsession-id\x7d.reset." ++ z ++
    " - Reset the game\n- \x7bsession-id\x7d.json." ++ z ++
    " - Get board state as JSON\n- \x7bsession-id\x7d." ++ z ++
    " - View board (shortcut)\n\nExample:\n1. dig @127.0.0.1 TXT new." ++ z ++
    "  # Create session, get ID\n2. dig @127.0.0.1 TXT abc123.join." ++ z ++
    "  # Join session, get token (assigned X or O)\n3. dig @127.0.0.1 TXT abc123-xyz78901-move-1-1." ++ z ++
    "  # Make move with token"

/-- Embeds `WriteInvalidCommand` payload. -/
def invalidCommandText (command : String) (validCommands : List String) : String :=
  "ERROR: unknown command: " ++ command ++ "\n\nValid commands:\n- " ++
    strJoin validCommands "\n- "

/-! ## DNS responder (pkg/dns/server.go) -/

/-- The response codes the handler sets. -/
inductive Rcode where
  | noerror
  | formerr
  | nxdomain
deriving DecidableEq, Repr

/-- The two resource-record kinds the server writes. -/
inductive RR where
  | txt (name : String) (ttl : Nat) (text : String)
  | ns (name : String) (ttl : Nat) (host : String)
deriving DecidableEq, Repr

/-- The reply message: rcode, answer section, AA flag. -/
structure DnsResponse where
  rcode : Rcode
  answer : List RR
  authoritative : Bool
deriving DecidableEq, Repr

/-- The `dns.Server` struct of pkg/dns/server.go: session manager state
(the manager's id-to-session map as an association list), zone and TTL.
`NewServer(sessionManager, zone, ttl)` takes no nameserver parameters. -/
structure Server where
  zone : String
  ttl : Nat
  sessions : List (String × Session)

/-- miekg/dns `TypeNS`. -/
def typeNS : Nat := 2

/-- miekg/dns `TypeTXT`. -/
def typeTXT : Nat := 16

/-- A reply carrying one TXT record (every `writeText` call appends a
single TXT record to the NOERROR authoritative reply). -/
def txtResponse (qname : String) (ttl : Nat) (text : String) : DnsResponse :=
  { rcode := Rcode.noerror, answer := [RR.txt qname ttl text], authoritative := true }

/-- Replace the stored session under `sid` (the Go handlers mutate the
session in place through its pointer). -/
def updateSession (sessions : List (String × Session)) (sid : String) (s2 : Session) :
    List (String × Session) :=
  sessions.map fun p => if p.1 = sid then (sid, s2) else p

/-- The id-uniqueness loop of `CreateSession`: draw, truncate, re-check
against the live map, and redraw until fresh (this loop, unlike the join
token loop, re-evaluates its exit condition each iteration). -/
def createSessionLoop (sessions : List (String × Session)) (gen : Nat → String) :
    Nat → Nat → Option String
  | _, 0 => none
  | i, Nat.succ f =>
    let id := gen i
    if (sessions.lookup id).isSome then createSessionLoop sessions gen (i + 1) f
    else some id

/-- Embeds `handleSessionManagement` plus `handleCreateSession` and
`handleListSessions`. -/
def handleSessionManagement (srv : Server) (gen : Nat → String) (fuel : Nat)
    (qname : String) (q : Query) : Option (DnsResponse × Server) :=
  match q.command with
  | Command.new | Command.create =>
    match createSessionLoop srv.sessions gen 0 fuel with
    | none => none
    | some sid =>
      some (txtResponse qname srv.ttl (sessionCreatedText sid srv.zone),
            { srv with sessions := srv.sessions ++ [(sid, newSession)] })
  | Command.list | Command.sessions =>
    some (txtResponse qname srv.ttl
            (sessionListText (srv.sessions.map Prod.fst) srv.zone), srv)
  | _ =>
    some (txtResponse qname srv.ttl (helpText srv.zone), srv)

/-- Embeds `handleMoveCommand`: reject nil or out-of-range `MoveParams`, then
fewer than two players, then an empty `Query.PlayerToken`, then an
unregistered token; otherwise run `MakeMove` and reply with the board
plus either the engine error or `Move accepted!`. -/
def handleMoveCommand (srv : Server) (qname : String) (q : Query) (sess : Session) :
    DnsResponse × Server :=
  match q.moveParams with
  | none => (txtResponse qname srv.ttl ("ERROR: " ++ invalidMoveFormatMsg q.rawQuery), srv)
  | some mp =>
    if moveParamsIsValid mp = false then
      (txtResponse qname srv.ttl ("ERROR: " ++ invalidMoveFormatMsg q.rawQuery), srv)
    else if sess.players.length < 2 then
      (txtResponse qname srv.ttl "ERROR: waiting for players to join (need 2 players)", srv)
    else if q.playerToken = "" then
      (txtResponse qname srv.ttl "ERROR: player token is required", srv)
    else
      match sess.players.lookup q.playerToken with
      | none =>
        (txtResponse qname srv.ttl ("ERROR: invalid player token: " ++ q.playerToken), srv)
      | some player =>
        match makeMove sess.game mp.row mp.col player with
        | Except.error e =>
          (txtResponse qname srv.ttl
             (boardWithMessageText q.sessionID ("ERROR: " ++ errorMessage e) sess.game), srv)
        | Except.ok g2 =>
          (txtResponse qname srv.ttl
             (boardWithMessageText q.sessionID "Move accepted!" g2),
           { srv with sessions := updateSession srv.sessions q.sessionID
                        { sess with game := g2 } })

/-- Embeds `handleResetCommand`: `Reset()`, then `StartGame()` when the session
still has exactly 2 players, then the `Game reset!` board reply. -/
def handleResetCommand (srv : Server) (qname sid : String) (sess : Session) :
    DnsResponse × Server :=
  let g1 := initialState
  let g2 := if sess.players.length = 2 then startGame g1 else g1
  (txtResponse qname srv.ttl (boardWithMessageText sid "Game reset!" g2),
   { srv with sessions := updateSession srv.sessions sid { sess with game := g2 } })

/-- Embeds `handleJoinCommand`: run the admission protocol and reply with the
join payload, or with the error text. -/
def handleJoinCommand (srv : Server) (gen : Nat → String) (fuel : Nat)
    (qname sid : String) (sess : Session) : Option (DnsResponse × Server) :=
  match joinSessionOp sess gen fuel with
  | none => none
  | some (Except.error msg) => some (txtResponse qname srv.ttl ("ERROR: " ++ msg), srv)
  | some (Except.ok (sess2, token, player)) =>
    some (txtResponse qname srv.ttl (joinSuccessText sid token player srv.zone),
          { srv with sessions := updateSession srv.sessions sid sess2 })

/-- Embeds `handleGameCommand`: look the session up (rendering the
session-not-found error with its create hint), then dispatch. -/
def handleGameCommand (srv : Server) (gen : Nat → String) (fuel : Nat)
    (qname : String) (q : Query) : Option (DnsResponse × Server) :=
  match srv.sessions.lookup q.sessionID with
  | none =>
    some (txtResponse qname srv.ttl
            ("ERROR: session not found: " ++ q.sessionID ++
             "\n\nCreate a new session with: new." ++ strTrimSuffix srv.zone "."), srv)
  | some sess =>
    match q.command with
    | Command.join => handleJoinCommand srv gen fuel qname q.sessionID sess
    | Command.board | Command.status =>
      some (txtResponse qname srv.ttl (boardText q.sessionID sess.game), srv)
    | Command.move => some (handleMoveCommand srv qname q sess)
    | Command.reset => some (handleResetCommand srv qname q.sessionID sess)
    | Command.json => some (txtResponse qname srv.ttl (writeJSONWithSession sess), srv)
    | _ =>
      some (txtResponse qname srv.ttl
              (invalidCommandText q.rawQuery ["join", "board", "reset", "json"]), srv)

/-- Embeds `handleQuery`: session-management commands, game commands, or help. -/
def handleQuery (srv : Server) (gen : Nat → String) (fuel : Nat)
    (qname : String) (q : Query) : Option (DnsResponse × Server) :=
  if queryIsSessionManagement q then
    handleSessionManagement srv gen fuel qname q
  else if queryIsGameCommand q then
    handleGameCommand srv gen fuel qname q
  else
    some (txtResponse qname srv.ttl (helpText srv.zone), srv)

/-- One DNS question. -/
structure DnsQuestion where
  name : String
  qtype : Nat
deriving DecidableEq, Repr, Inhabited

/-- Embeds `HandleRequest`: FORMERR on an empty question section; NS queries
answered with the hardcoded `localhost.` nameserver when the lowercased,
dot-normalized qname ends in the normalized zone, NXDOMAIN otherwise;
other non-TXT types NODATA on the zone suffix and NXDOMAIN off it; TXT
queries parsed (NXDOMAIN when the zone suffix check of `parseQuery`
fails) and dispatched through `handleQuery` with the original qname. -/
def handleRequest (srv : Server) (gen : Nat → String) (fuel : Nat)
    (questions : List DnsQuestion) : Option (DnsResponse × Server) :=
  if questions.length = 0 then
    some ({ rcode := Rcode.formerr, answer := [], authoritative := true }, srv)
  else
    let question := questions.headI
    let qname := strToLower question.name
    let qtype := question.qtype
    if qtype = typeNS then
      if strEndsWith (withTrailingDot qname) (zoneNormalize srv.zone) then
        some ({ rcode := Rcode.noerror, answer := [RR.ns qname srv.ttl "localhost."],
                authoritative := true }, srv)
      else
        some ({ rcode := Rcode.nxdomain, answer := [], authoritative := true }, srv)
    else if qtype ≠ typeTXT then
      if strEndsWith (withTrailingDot qname) (zoneNormalize srv.zone) then
        some ({ rcode := Rcode.noerror, answer := [], authoritative := true }, srv)
      else
        some ({ rcode := Rcode.nxdomain, answer := [], authoritative := true }, srv)
    else
      match parseQuery srv.zone qname with
      | Except.error _ =>
        some ({ rcode := Rcode.nxdomain, answer := [], authoritative := true }, srv)
      | Except.ok q => handleQuery srv gen fuel question.name q

/-! ## Concrete fixtures used by the witnesses and counterexamples -/

/-- The state after X moves at (0,0) in a fresh started game. -/
def wState : GameState :=
  { board := setCell emptyBoard 0 0 Player.X, turn := Player.O, status := Status.playing }

/-- A started game (two players joined). -/
def playingW : GameState := startGame initialState

/-- A session that already has two players. -/
def fullSessW : Session :=
  { players := [("t0", Player.X), ("tx", Player.O)], game := startGame initialState }

/-- A session with one player, pending game. -/
def sessW1 : Session := { players := [("t0", Player.X)], game := initialState }

/-- The session after the second player joins `sessW1` with token `t1`. -/
def sessW2 : Session :=
  { players := [("t0", Player.X), ("t1", Player.O)],
    game := { board := emptyBoard, turn := Player.X, status := Status.playing } }

/-- A token generator whose first draw is `t1`. -/
def genW1 : Nat → String := fun n => if n = 0 then "t1" else "t9"

/-- A generator whose first draw collides with the resident token and
whose redraws are all fresh. -/
def genC8 : Nat → String := fun n => if n = 0 then "tok0" else "fresh"

/-- A session holding the token that `genC8` draws first. -/
def sessC8 : Session := { players := [("tok0", Player.X)], game := initialState }

/-- Session with one player whose engine is nevertheless already playing. -/
def sessC5 : Session := { players := [("t0", Player.X)], game := startGame initialState }

/-- Server holding `sessC5`. -/
def srvC5 : Server := { zone := "game.local.", ttl := 0, sessions := [("sid12345", sessC5)] }

/-- The json query against `sessC5`. -/
def qC5 : Query :=
  { sessionID := "sid12345", playerToken := "", command := Command.json,
    moveParams := none, rawQuery := "sid12345.json" }

/-- The reset query against the two-player server `srvC5`'s sibling. -/
def qC7 : Query :=
  { sessionID := "abcd1234", playerToken := "", command := Command.reset,
    moveParams := none, rawQuery := "abcd1234.reset" }

/-- A two-player session mid-game: X already played at (0,0). -/
def sessC7 : Session :=
  { players := [("tok1", Player.X), ("tok2", Player.O)], game := wState }

/-- Server holding `sessC7`. -/
def srvC7 : Server := { zone := "game.local.", ttl := 0, sessions := [("abcd1234", sessC7)] }

/-- A server with one two-player session `abcd1234` (tokens `tok1` for X
and `tok2` for O) whose game is in progress. -/
def srvC4 : Server :=
  { zone := "game.local.", ttl := 0,
    sessions := [("abcd1234",
      { players := [("tok1", Player.X), ("tok2", Player.O)],
        game := startGame initialState })] }

/-- The parsed out-of-range hyphen-move query. -/
def qC4 : Query := parseSubdomain "abcd1234-tok1-move-5-0"

/-- The two-player session stored in `srvC4`. -/
def sessC4 : Session :=
  { players := [("tok1", Player.X), ("tok2", Player.O)], game := startGame initialState }

/-- Modelled from the spec's words: a qname (already lowercased and
dot-normalized) is "the configured zone or a sub-domain of it" when it
equals the zone or ends in `.` followed by the zone. -/
def specIsZoneOrSubdomain (qname zone : String) : Bool :=
  qname = zone || strEndsWith qname ("." ++ zone)

/-- An empty server on zone `game.local.`. -/
def srvC6 : Server := { zone := "game.local.", ttl := 0, sessions := [] }

/-- The configuration struct of cmd/dns-tic-tac-toe/main.go, loaded from
the environment (`DNS_ZONE`, `DNS_TTL`, `NS_HOSTNAME`, `NS_IP`, ...). -/
structure Config where
  dnsZone : String
  dnsTTL : Nat
  nsHostname : String
  nsIP : String

/-- main.go's server construction: normalize the zone to a trailing dot
and hand zone and TTL to `NewServer`.  `NewServer` in pkg/dns/server.go
accepts only the session manager, the zone and the TTL, so the
`NSHostname` and `NSIP` configuration never reaches the responder. -/
def serverOfConfig (cfg : Config) : Server :=
  { zone := withTrailingDot cfg.dnsZone, ttl := cfg.dnsTTL, sessions := [] }

/-- A configuration with a non-default nameserver host. -/
def cfgC9 : Config :=
  { dnsZone := "game.local", dnsTTL := 0, nsHostname := "ns1.example.com",
    nsIP := "192.0.2.1" }

/-- The dotted move query with a well-formed id, in-range coordinates and
a non-empty token written in the name. -/
def qC10 : Query := parseSubdomain "abcd1234.move-1-2-tok12345"

/-! ## Theorems -/

/-- Switching the turn always changes it. -/
theorem otherPlayer_ne (t : Player) : otherPlayer t ≠ t := by
  cases t <;> decide

/-- C1: when `MakeMove(row, col, player)` succeeds, the indices were in
range, the target cell was empty before and holds `player` after, no
other cell changed, a completed line of `player`'s symbol makes the
status `X_wins`/`O_wins`, a full board without a win makes it `draw`,
otherwise the turn toggles — and the turn flips iff the game did not
terminate on this move. -/
theorem makeMove_success_spec (s : GameState) (row col : Int) (p : Player)
    (s2 : GameState) (h : makeMove s row col p = Except.ok s2) :
    0 ≤ row ∧ row < 3 ∧ 0 ≤ col ∧ col < 3 ∧
    ∃ (hr : row.toNat < 3) (hc : col.toNat < 3),
      s.board ⟨row.toNat, hr⟩ ⟨col.toNat, hc⟩ = none ∧
      s2.board ⟨row.toNat, hr⟩ ⟨col.toNat, hc⟩ = some p ∧
      (∀ i j : Fin 3, ¬(i = ⟨row.toNat, hr⟩ ∧ j = ⟨col.toNat, hc⟩) →
        s2.board i j = s.board i j) ∧
      (checkWin s2.board p = true →
        s2.status = (if p = Player.X then Status.xWins else Status.oWins) ∧
        s2.turn = s.turn) ∧
      (checkWin s2.board p = false → isBoardFull s2.board = true →
        s2.status = Status.draw ∧ s2.turn = s.turn) ∧
      (checkWin s2.board p = false → isBoardFull s2.board = false →
        s2.turn = otherPlayer s.turn ∧ s2.status = Status.playing) ∧
      (s2.turn ≠ s.turn ↔ s2.status = Status.playing) := by
  unfold makeMove at h
  split at h
  · exact absurd h (by simp)
  next hplaying =>
  split at h
  · exact absurd h (by simp)
  next hturn =>
  split at h
  · exact absurd h (by simp)
  next hrange =>
  rw [not_or, not_or, not_or] at hrange
  obtain ⟨hr0, hr3, hc0, hc3⟩ := hrange
  refine ⟨by omega, by omega, by omega, by omega, by omega, by omega, ?_⟩
  rw [not_not] at hplaying hturn
  dsimp only at h
  split at h
  · exact absurd h (by simp)
  next hempty =>
  rw [not_not] at hempty
  refine ⟨hempty, ?_⟩
  split at h
  next hwin =>
    cases h
    refine ⟨by simp [setCell], ?_, ?_, ?_, ?_, ?_⟩
    · intro i j hij
      simp only [setCell, if_neg hij]
    · intro _
      exact ⟨rfl, rfl⟩
    · intro hw _
      simp only at hw
      rw [hwin] at hw
      cases hw
    · intro hw _
      simp only at hw
      rw [hwin] at hw
      cases hw
    · constructor
      · intro hne
        exact absurd rfl hne
      · intro hst
        simp only at hst
        split at hst <;> cases hst
  next hnowin =>
  rw [Bool.not_eq_true] at hnowin
  split at h
  next hfull =>
    cases h
    refine ⟨by simp [setCell], ?_, ?_, ?_, ?_, ?_⟩
    · intro i j hij
      simp only [setCell, if_neg hij]
    · intro hw
      simp only at hw
      rw [hnowin] at hw
      cases hw
    · intro _ _
      exact ⟨rfl, rfl⟩
    · intro _ hf
      simp only at hf
      rw [hfull] at hf
      cases hf
    · constructor
      · intro hne
        exact absurd rfl hne
      · intro hst
        cases hst
  next hnotfull =>
    rw [Bool.not_eq_true] at hnotfull
    cases h
    refine ⟨by simp [setCell], ?_, ?_, ?_, ?_, ?_⟩
    · intro i j hij
      simp only [setCell, if_neg hij]
    · intro hw
      simp only at hw
      rw [hnowin] at hw
      cases hw
    · intro _ hf
      simp only at hf
      rw [hnotfull] at hf
      cases hf
    · intro _ _
      exact ⟨rfl, hplaying⟩
    · rw [hplaying]
      exact ⟨fun _ => rfl, fun _ => otherPlayer_ne s.turn⟩

/-- Witness for `makeMove_success_spec`: X moving at (0,0) in a fresh
started game. -/
theorem makeMove_success_spec_witness :
    (startGame initialState).board 0 0 = none ∧
    wState.board 0 0 = some Player.X ∧
    (wState.turn ≠ (startGame initialState).turn ↔ wState.status = Status.playing) := by
  obtain ⟨-, -, -, -, hr, hc, h1, h2, -, -, -, -, h7⟩ :=
    makeMove_success_spec (startGame initialState) 0 0 Player.X wState rfl
  exact ⟨h1, h2, h7⟩

/-- C2: the four `MakeMove` preconditions are checked in source order and
the first to fail determines the error — status first (its message
carrying the current status, and applying even to out-of-range indices),
then turn (message carrying the current turn), then the [0,2] range
check, then cell emptiness. -/
theorem makeMove_error_order (s : GameState) (row col : Int) (p : Player) :
    (s.status ≠ Status.playing →
      makeMove s row col p = Except.error (MoveError.gameOver s.status) ∧
      errorMessage (MoveError.gameOver s.status) =
        "game is over: " ++ statusString s.status) ∧
    (s.status = Status.playing → p ≠ s.turn →
      makeMove s row col p = Except.error (MoveError.wrongTurn p s.turn) ∧
      errorMessage (MoveError.wrongTurn p s.turn) =
        "not " ++ playerString p ++ "'s turn (current turn: " ++
          playerString s.turn ++ ")") ∧
    (s.status = Status.playing → p = s.turn →
      (row < 0 ∨ 3 ≤ row ∨ col < 0 ∨ 3 ≤ col) →
      makeMove s row col p = Except.error (MoveError.invalidPosition row col)) ∧
    (s.status = Status.playing → p = s.turn →
      ∀ (hr : row.toNat < 3) (hc : col.toNat < 3), 0 ≤ row → 0 ≤ col →
      s.board ⟨row.toNat, hr⟩ ⟨col.toNat, hc⟩ ≠ none →
      makeMove s row col p = Except.error MoveError.positionTaken) := by
  refine ⟨?_, ?_, ?_, ?_⟩
  · intro hst
    refine ⟨?_, rfl⟩
    unfold makeMove
    rw [if_pos hst]
  · intro hst hp
    refine ⟨?_, rfl⟩
    unfold makeMove
    rw [if_neg (by simp [hst]), if_pos hp]
  · intro hst hp hrange
    unfold makeMove
    rw [if_neg (by simp [hst]), if_neg (by simp [hp]), dif_pos hrange]
  · intro hst hp hr hc h0r h0c hcell
    unfold makeMove
    rw [if_neg (by simp [hst]), if_neg (by simp [hp]), dif_neg (by omega)]
    dsimp only
    rw [if_pos hcell]

/-- Witness for `makeMove_error_order`: each precondition failing at a
concrete input, with the game-over error returned for an out-of-range
row while the game is still pending. -/
theorem makeMove_error_order_witness :
    makeMove initialState 5 0 Player.X =
      Except.error (MoveError.gameOver Status.pending) ∧
    makeMove playingW 0 0 Player.O =
      Except.error (MoveError.wrongTurn Player.O Player.X) ∧
    makeMove playingW 3 0 Player.X =
      Except.error (MoveError.invalidPosition 3 0) ∧
    makeMove wState 0 0 Player.O = Except.error MoveError.positionTaken := by
  refine ⟨((makeMove_error_order initialState 5 0 Player.X).1 (by decide)).1,
          ((makeMove_error_order playingW 0 0 Player.O).2.1 rfl (by decide)).1,
          (makeMove_error_order playingW 3 0 Player.X).2.2.1 rfl rfl (by omega),
          (makeMove_error_order wState 0 0 Player.O).2.2.2 rfl rfl (by decide)
            (by decide) (by decide) (by decide) (by decide)⟩

/-- Once the `exists` flag is true it never changes, so the loop runs out
of any amount of fuel. -/
theorem tokenLoopIter_none (gen : Nat → String) (i fuel : Nat) (token : String) :
    tokenLoopIter true gen i fuel token = none := by
  induction fuel generalizing i token with
  | zero => rfl
  | succ f ih =>
    unfold tokenLoopIter
    exact ih (i + 1) (gen i)

/-- The token loop only ever returns the very first draw, and only when
that draw was not already in the map. -/
theorem joinTokenLoop_eq_some (players : List (String × Player)) (gen : Nat → String)
    (fuel : Nat) (token : String) (h : joinTokenLoop players gen fuel = some token) :
    token = gen 0 ∧ players.lookup (gen 0) = none := by
  unfold joinTokenLoop at h
  dsimp only at h
  rcases hflag : players.lookup (gen 0) with _ | v
  · rw [hflag] at h
    unfold tokenLoopIter at h
    rw [show (none : Option Player).isSome = false from rfl, if_pos rfl] at h
    cases h
    exact ⟨rfl, rfl⟩
  · rw [hflag, Option.isSome_some, tokenLoopIter_none] at h
    cases h

/-- Everything `JoinSession` guarantees on its success path. -/
theorem joinSessionOp_ok_spec (sess : Session) (gen : Nat → String) (fuel : Nat)
    (sess2 : Session) (token : String) (p : Player)
    (h : joinSessionOp sess gen fuel = some (Except.ok (sess2, token, p))) :
    sess.players.length < 2 ∧
    p = (if sess.players.length = 0 then Player.X else Player.O) ∧
    sess.players.lookup token = none ∧
    sess2.players = sess.players ++ [(token, p)] ∧
    sess2.players.length = sess.players.length + 1 ∧
    sess2.game =
      (if sess2.players.length = 2 then startGame sess.game else sess.game) := by
  unfold joinSessionOp at h
  split at h
  · simp only [Option.some.injEq] at h
    cases h
  next hfull =>
  dsimp only at h
  rcases hloop : joinTokenLoop sess.players gen fuel with _ | tk
  · rw [hloop] at h
    cases h
  · rw [hloop] at h
    simp only [Option.some.injEq, Except.ok.injEq, Prod.mk.injEq] at h
    obtain ⟨hsess2, htk, hp⟩ := h
    obtain ⟨htk0, hfresh⟩ := joinTokenLoop_eq_some sess.players gen fuel tk hloop
    subst htk hp hsess2
    refine ⟨by omega, rfl, by rw [htk0]; exact hfresh, rfl, by simp, ?_⟩
    simp only [List.length_append, List.length_cons, List.length_nil]

/-- C3: a join on a full session fails with the session-full error and
changes nothing; otherwise the joiner gets X when the session was empty
and O otherwise, a fresh token is inserted, and `StartGame()` runs
exactly when the join brings the count to 2 (turning pending into
playing); consequently every state reachable by join sequences from a
fresh session has at most 2 players. -/
theorem joinSession_spec (sess : Session) (gen : Nat → String) (fuel : Nat) :
    (2 ≤ sess.players.length →
      joinSessionOp sess gen fuel =
        some (Except.error "session is full (2 players already joined)")) ∧
    (∀ (sess2 : Session) (token : String) (p : Player),
      joinSessionOp sess gen fuel = some (Except.ok (sess2, token, p)) →
      sess.players.length < 2 ∧
      p = (if sess.players.length = 0 then Player.X else Player.O) ∧
      sess.players.lookup token = none ∧
      sess2.players = sess.players ++ [(token, p)] ∧
      sess2.players.length = sess.players.length + 1 ∧
      sess2.game =
        (if sess2.players.length = 2 then startGame sess.game else sess.game) ∧
      (sess.game.status = Status.pending → sess2.players.length = 2 →
        sess2.game.status = Status.playing)) ∧
    (∀ joins : List ((Nat → String) × Nat),
      (joinMany newSession joins).players.length ≤ 2) := by
  refine ⟨?_, ?_, ?_⟩
  · intro hfull
    unfold joinSessionOp
    rw [if_pos hfull]
  · intro sess2 token p h
    obtain ⟨h1, h2, h3, h4, h5, h6⟩ := joinSessionOp_ok_spec sess gen fuel sess2 token p h
    refine ⟨h1, h2, h3, h4, h5, h6, ?_⟩
    intro hpend hlen2
    rw [h6, if_pos hlen2]
    simp [startGame, hpend]
  · intro joins
    have hstep : ∀ (s : Session) (g : (Nat → String) × Nat),
        s.players.length ≤ 2 → (joinStep s g).players.length ≤ 2 := by
      intro s g hs
      unfold joinStep
      rcases hj : joinSessionOp s g.1 g.2 with _ | r
      · exact hs
      · rcases r with msg | ⟨s2, tk, p⟩
        · exact hs
        · obtain ⟨h1, -, -, -, h5, -⟩ := joinSessionOp_ok_spec s g.1 g.2 s2 tk p hj
          show s2.players.length ≤ 2
          omega
    have : ∀ (joins : List ((Nat → String) × Nat)) (s : Session),
        s.players.length ≤ 2 → (joinMany s joins).players.length ≤ 2 := by
      intro js
      induction js with
      | nil => intro s hs; exact hs
      | cons g t ih =>
        intro s hs
        exact ih (joinStep s g) (hstep s g hs)
    exact this joins newSession (by simp [newSession])

/-- Witness for `joinSession_spec`: the full session is rejected, and the
second joiner of a one-player pending session gets O, a fresh token, and
a playing game. -/
theorem joinSession_spec_witness :
    joinSessionOp fullSessW genW1 1 =
      some (Except.error "session is full (2 players already joined)") ∧
    Player.O = (if sessW1.players.length = 0 then Player.X else Player.O) ∧
    sessW1.players.lookup "t1" = none ∧
    sessW2.players = sessW1.players ++ [("t1", Player.O)] ∧
    (sessW1.game.status = Status.pending → sessW2.players.length = 2 →
      sessW2.game.status = Status.playing) := by
  have h1 := (joinSession_spec fullSessW genW1 1).1 (by decide)
  have h2 := (joinSession_spec sessW1 genW1 1).2.1 sessW2 "t1" Player.O rfl
  exact ⟨h1, h2.2.1, h2.2.2.1, h2.2.2.2.1, h2.2.2.2.2.2.2⟩

/-- C8 (code bug): when the first generated token collides, `JoinSession`
never terminates no matter how many iterations the redraw loop is given —
the loop redraws the token but its `exists` condition is the flag bound
once in the for-init statement, never re-checked against the map — even
though the very next draw (`genC8 1 = "fresh"`) is not in the map. -/
theorem joinSession_token_loop_diverges :
    (∀ fuel : Nat, joinSessionOp sessC8 genC8 fuel = none) ∧
    sessC8.players.lookup (genC8 1) = none := by
  constructor
  · intro fuel
    unfold joinSessionOp
    rw [if_neg (by decide)]
    dsimp only
    have hloop : joinTokenLoop sessC8.players genC8 fuel = none := by
      unfold joinTokenLoop
      dsimp only
      rw [show (sessC8.players.lookup (genC8 0)).isSome = true from rfl]
      exact tokenLoopIter_none genC8 1 fuel (genC8 0)
    rw [hloop]
  · rfl

/-- C5: the `.json` reply is the engine state marshalled with exactly the
keys `board` (3x3 array, empty cells as empty strings), `turn` and
`status`, where the status is forced to pending when fewer than 2
players have joined and reported unchanged with 2 players. -/
theorem jsonReply_spec (srv : Server) (gen : Nat → String) (fuel : Nat)
    (qname : String) (q : Query) (sess : Session)
    (hlook : srv.sessions.lookup q.sessionID = some sess)
    (hcmd : q.command = Command.json) :
    handleGameCommand srv gen fuel qname q =
      some (txtResponse qname srv.ttl
        (stateJSON
          { board := sess.game.board, turn := sess.game.turn,
            status :=
              if sess.players.length < 2 then Status.pending else sess.game.status }),
        srv) ∧
    (∀ s : GameState, stateJSON s =
      "\x7b\"board\":[" ++ jsonRow s.board 0 ++ "," ++ jsonRow s.board 1 ++ "," ++
        jsonRow s.board 2 ++ "],\"turn\":\"" ++ playerString s.turn ++
        "\",\"status\":\"" ++ statusString s.status ++ "\"\x7d") ∧
    cellString (none : Cell) = "" := by
  refine ⟨?_, fun s => rfl, rfl⟩
  unfold handleGameCommand
  rw [hlook]
  show (match q.command with
    | Command.join => handleJoinCommand srv gen fuel qname q.sessionID sess
    | Command.board | Command.status =>
      some (txtResponse qname srv.ttl (boardText q.sessionID sess.game), srv)
    | Command.move => some (handleMoveCommand srv qname q sess)
    | Command.reset => some (handleResetCommand srv qname q.sessionID sess)
    | Command.json => some (txtResponse qname srv.ttl (writeJSONWithSession sess), srv)
    | _ =>
      some (txtResponse qname srv.ttl
              (invalidCommandText q.rawQuery ["join", "board", "reset", "json"]), srv)) = _
  rw [hcmd]
  show some (txtResponse qname srv.ttl (writeJSONWithSession sess), srv) = _
  unfold writeJSONWithSession
  dsimp only
  by_cases hn : sess.players.length < 2
  · rw [if_pos hn, if_pos hn]
  · rw [if_neg hn, if_neg hn]

/-- Witness for `jsonReply_spec`: one joined player, engine already
playing, and the reported status is pending anyway. -/
theorem jsonReply_spec_witness :
    handleGameCommand srvC5 genW1 1 "sid12345.json.game.local." qC5 =
      some (txtResponse "sid12345.json.game.local." 0
        (stateJSON
          { board := sessC5.game.board, turn := sessC5.game.turn,
            status :=
              if sessC5.players.length < 2 then Status.pending else sessC5.game.status }),
        srvC5) ∧
    sessC5.game.status = Status.playing ∧
    stateJSON
        { board := sessC5.game.board, turn := sessC5.game.turn,
          status :=
            if sessC5.players.length < 2 then Status.pending else sessC5.game.status } =
      "\x7b\"board\":[[\"\",\"\",\"\"],[\"\",\"\",\"\"],[\"\",\"\",\"\"]],\"turn\":\"X\",\"status\":\"pending\"\x7d" := by
  refine ⟨?_, rfl, by decide⟩
  exact (jsonReply_spec srvC5 genW1 1 "sid12345.json.game.local." qC5 sessC5 rfl rfl).1

/-- C7: a reset on an existing session restores the empty board with turn
X, re-starts the game exactly when the session still has 2 players, and
replies with the board under the `Game reset!` line. -/
theorem resetReply_spec (srv : Server) (gen : Nat → String) (fuel : Nat)
    (qname : String) (q : Query) (sess : Session)
    (hlook : srv.sessions.lookup q.sessionID = some sess)
    (hcmd : q.command = Command.reset) :
    handleGameCommand srv gen fuel qname q =
      (let g2 := if sess.players.length = 2 then
          { initialState with status := Status.playing } else initialState
       some (txtResponse qname srv.ttl
               (boardWithMessageText q.sessionID "Game reset!" g2),
             { srv with sessions := updateSession srv.sessions q.sessionID
                          { sess with game := g2 } })) ∧
    (∀ (sid : String) (g : GameState), boardWithMessageText sid "Game reset!" g =
      "Session: " ++ sid ++ "\n" ++ "Game reset!" ++ "\n" ++ formatBoard g) ∧
    (let g2 := if sess.players.length = 2 then
        { initialState with status := Status.playing } else initialState
     g2.board = emptyBoard ∧ g2.turn = Player.X ∧
     (sess.players.length = 2 → g2.status = Status.playing) ∧
     (sess.players.length ≠ 2 → g2.status = Status.pending)) := by
  refine ⟨?_, fun sid g => rfl, ?_⟩
  · unfold handleGameCommand
    rw [hlook]
    show (match q.command with
      | Command.join => handleJoinCommand srv gen fuel qname q.sessionID sess
      | Command.board | Command.status =>
        some (txtResponse qname srv.ttl (boardText q.sessionID sess.game), srv)
      | Command.move => some (handleMoveCommand srv qname q sess)
      | Command.reset => some (handleResetCommand srv qname q.sessionID sess)
      | Command.json => some (txtResponse qname srv.ttl (writeJSONWithSession sess), srv)
      | _ =>
        some (txtResponse qname srv.ttl
                (invalidCommandText q.rawQuery ["join", "board", "reset", "json"]), srv)) = _
    rw [hcmd]
    show some (handleResetCommand srv qname q.sessionID sess) = _
    unfold handleResetCommand
    dsimp only
    by_cases h2 : sess.players.length = 2
    · rw [if_pos h2, if_pos h2]
      rfl
    · rw [if_neg h2, if_neg h2]
  · dsimp only
    refine ⟨?_, ?_, ?_, ?_⟩
    · split <;> rfl
    · split <;> rfl
    · intro h2
      rw [if_pos h2]
    · intro h2
      rw [if_neg h2]
      rfl

/-- Witness for `resetReply_spec`: resetting a two-player mid-game
session empties the board and goes straight back to playing. -/
theorem resetReply_spec_witness :
    handleGameCommand srvC7 genW1 1 "abcd1234.reset.game.local." qC7 =
      some (txtResponse "abcd1234.reset.game.local." 0
              (boardWithMessageText "abcd1234" "Game reset!"
                { initialState with status := Status.playing }),
            { srvC7 with sessions := updateSession srvC7.sessions "abcd1234"
                           { sessC7 with game :=
                               { initialState with status := Status.playing } } }) ∧
    (sessC7.players.length = 2 →
      ({ initialState with status := Status.playing } : GameState).status =
        Status.playing) := by
  have h := resetReply_spec srvC7 genW1 1 "abcd1234.reset.game.local." qC7 sessC7 rfl rfl
  exact ⟨h.1, fun _ => h.2.2.2.2.1 rfl⟩

/-- C4 counterexample: the hyphen-move query `abcd1234-tok1-move-5-0`
(existing session, two players, registered token, out-of-range row 5) is
answered with the responder's invalid-move-format error, not the
engine's invalid-position error — even though the parser did store
row 5, col 0 in `MoveParams` without any range check. -/
theorem moveRange_counterexample :
    handleRequest srvC4 genW1 1 [⟨"abcd1234-tok1-move-5-0.game.local.", typeTXT⟩] =
      some (txtResponse "abcd1234-tok1-move-5-0.game.local." 0
        ("ERROR: " ++ invalidMoveFormatMsg "abcd1234-tok1-move-5-0"), srvC4) ∧
    ("ERROR: " ++ invalidMoveFormatMsg "abcd1234-tok1-move-5-0") ≠
      boardWithMessageText "abcd1234"
        ("ERROR: " ++ errorMessage (MoveError.invalidPosition 5 0))
        (startGame initialState) ∧
    (parseSubdomain "abcd1234-tok1-move-5-0").moveParams =
      some { row := 5, col := 0, playerToken := "" } := by
  refine ⟨rfl, by decide, rfl⟩

/-- C4 as amended: the parser performs no range check (it stores the
parsed integers as-is), and the [0,2] range check is performed by the
move handler's `MoveParams.IsValid` before the engine is consulted: a
move whose params are out of range is answered with the
invalid-move-format error and the server state is unchanged, so
`MakeMove` is never reached. -/
theorem moveRange_handler_spec (srv : Server) (qname : String) (q : Query)
    (sess : Session) (mp : MoveParams)
    (hmp : q.moveParams = some mp) (hinv : moveParamsIsValid mp = false) :
    handleMoveCommand srv qname q sess =
      (txtResponse qname srv.ttl ("ERROR: " ++ invalidMoveFormatMsg q.rawQuery), srv) ∧
    (moveParamsIsValid mp = false ↔
      ¬(0 ≤ mp.row ∧ mp.row < 3 ∧ 0 ≤ mp.col ∧ mp.col < 3)) := by
  constructor
  · unfold handleMoveCommand
    rw [hmp]
    show (if moveParamsIsValid mp = false then _ else _) = _
    rw [if_pos hinv]
  · unfold moveParamsIsValid
    constructor
    · intro hf hand
      simp only [decide_eq_true_eq] at hf
      rw [decide_eq_true hand.1, decide_eq_true hand.2.1, decide_eq_true hand.2.2.1,
          decide_eq_true hand.2.2.2] at hf
      cases hf
    · intro hn
      by_contra hne
      rcases Bool.eq_false_or_eq_true
        (decide (0 ≤ mp.row) && decide (mp.row < 3) && decide (0 ≤ mp.col) &&
          decide (mp.col < 3)) with htrue | hfalse
      · simp only [Bool.and_eq_true, decide_eq_true_eq] at htrue
        exact hn ⟨htrue.1.1.1, htrue.1.1.2, htrue.1.2, htrue.2⟩
      · exact hne hfalse

/-- Witness for `moveRange_handler_spec` at the concrete out-of-range
query of the counterexample. -/
theorem moveRange_handler_spec_witness :
    handleMoveCommand srvC4 "abcd1234-tok1-move-5-0.game.local." qC4 sessC4 =
      (txtResponse "abcd1234-tok1-move-5-0.game.local." 0
        ("ERROR: " ++ invalidMoveFormatMsg "abcd1234-tok1-move-5-0"), srvC4) ∧
    ¬(0 ≤ (5 : Int) ∧ (5 : Int) < 3 ∧ 0 ≤ (0 : Int) ∧ (0 : Int) < 3) := by
  have h := moveRange_handler_spec srvC4 "abcd1234-tok1-move-5-0.game.local." qC4 sessC4
    { row := 5, col := 0, playerToken := "" } rfl rfl
  exact ⟨h.1, h.2.mp rfl⟩

/-- C6 counterexample: `xgame.local.` is neither the zone `game.local.`
nor a sub-domain of it, yet an A query for it is answered NOERROR with an
empty answer section (the handler only checks a string suffix), not
NXDOMAIN as the claim requires. -/
theorem offzone_nxdomain_counterexample :
    specIsZoneOrSubdomain "xgame.local." "game.local." = false ∧
    handleRequest srvC6 genW1 1 [⟨"xgame.local.", 1⟩] =
      some ({ rcode := Rcode.noerror, answer := [], authoritative := true }, srvC6) ∧
    Rcode.noerror ≠ Rcode.nxdomain := by
  refine ⟨by decide, rfl, by decide⟩

/-- C6 as amended: the on-zone test is a plain string-suffix match of the
lowercased dot-normalized qname against the normalized zone (which also
accepts names such as `xgame.local` that are not sub-domains).  Whenever
that suffix test fails the response is NXDOMAIN with an empty answer for
every query type, and whenever it succeeds with a type that is neither
TXT nor NS the response is NOERROR with an empty answer (NODATA). -/
theorem offzone_nodata_spec (srv : Server) (gen : Nat → String) (fuel : Nat)
    (name : String) (qtype : Nat) :
    (strEndsWith (withTrailingDot (strToLower name)) (zoneNormalize srv.zone) = false →
      handleRequest srv gen fuel [⟨name, qtype⟩] =
        some ({ rcode := Rcode.nxdomain, answer := [], authoritative := true }, srv)) ∧
    (strEndsWith (withTrailingDot (strToLower name)) (zoneNormalize srv.zone) = true →
      qtype ≠ typeNS → qtype ≠ typeTXT →
      handleRequest srv gen fuel [⟨name, qtype⟩] =
        some ({ rcode := Rcode.noerror, answer := [], authoritative := true }, srv)) := by
  constructor
  · intro hz
    unfold handleRequest
    rw [if_neg (by simp)]
    dsimp only [List.headI]
    by_cases hns : qtype = typeNS
    · rw [if_pos hns, if_neg (by rw [hz]; exact Bool.false_ne_true)]
    · rw [if_neg hns]
      by_cases htxt : qtype = typeTXT
      · rw [if_neg (by simp [htxt])]
        unfold parseQuery
        dsimp only
        rw [if_pos (by rw [hz])]
      · rw [if_pos htxt, if_neg (by rw [hz]; exact Bool.false_ne_true)]
  · intro hz hns htxt
    unfold handleRequest
    rw [if_neg (by simp)]
    dsimp only [List.headI]
    rw [if_neg hns, if_pos htxt, if_pos hz]

/-- Witness for `offzone_nodata_spec`: a TXT query for an off-zone name
gets NXDOMAIN, and an on-zone A query gets NOERROR with no answers. -/
theorem offzone_nodata_spec_witness :
    handleRequest srvC6 genW1 1 [⟨"foo.example.com.", 16⟩] =
      some ({ rcode := Rcode.nxdomain, answer := [], authoritative := true }, srvC6) ∧
    handleRequest srvC6 genW1 1 [⟨"new.game.local.", 1⟩] =
      some ({ rcode := Rcode.noerror, answer := [], authoritative := true }, srvC6) := by
  exact ⟨(offzone_nodata_spec srvC6 genW1 1 "foo.example.com." 16).1 (by decide),
         (offzone_nodata_spec srvC6 genW1 1 "new.game.local." 1).2 (by decide)
           (by decide) (by decide)⟩

/-- C9 counterexample: with `NS_HOSTNAME = ns1.example.com`, the NS
answer for the zone still names the hardcoded `localhost.` — the
configured nameserver host is not what the record carries. -/
theorem nsRecord_counterexample :
    handleRequest (serverOfConfig cfgC9) genW1 1 [⟨"game.local.", typeNS⟩] =
      some ({ rcode := Rcode.noerror,
              answer := [RR.ns "game.local." 0 "localhost."],
              authoritative := true }, serverOfConfig cfgC9) ∧
    "localhost." ≠ withTrailingDot cfgC9.nsHostname := by
  refine ⟨rfl, by decide⟩

/-- C9 as amended: every NS query whose lowercased dot-normalized qname
ends in the normalized zone is answered with a single NS record whose
nameserver name is the literal `localhost.` (`writeNSRecord` does not
consult the configured `NS_HOSTNAME`) and whose TTL is the configured
TTL. -/
theorem nsReply_spec (srv : Server) (gen : Nat → String) (fuel : Nat) (name : String)
    (hz : strEndsWith (withTrailingDot (strToLower name)) (zoneNormalize srv.zone) = true) :
    handleRequest srv gen fuel [⟨name, typeNS⟩] =
      some ({ rcode := Rcode.noerror,
              answer := [RR.ns (strToLower name) srv.ttl "localhost."],
              authoritative := true }, srv) := by
  unfold handleRequest
  rw [if_neg (by simp)]
  dsimp only [List.headI]
  rw [if_pos rfl, if_pos hz]

/-- Witness for `nsReply_spec`: an NS query for a sub-domain of the zone. -/
theorem nsReply_spec_witness :
    handleRequest srvC6 genW1 1 [⟨"play.game.local.", typeNS⟩] =
      some ({ rcode := Rcode.noerror,
              answer := [RR.ns "play.game.local." 0 "localhost."],
              authoritative := true }, srvC6) := by
  exact nsReply_spec srvC6 genW1 1 "play.game.local." (by decide)

/-- C10: the dotted `{sid}.move-ROW-COL-TOKEN` form never fills the
query's `PlayerToken` (the dotted parser stores the token only inside
`MoveParams`), and the move handler consults only `Query.PlayerToken`,
so such a move against a two-player session is answered with the
`player token is required` error regardless of the token in the name. -/
theorem dottedMove_token_spec :
    (∀ sub : String, containsMoveDash sub = false →
      (parseSubdomain sub).playerToken = "") ∧
    (∀ (srv : Server) (qname : String) (q : Query) (sess : Session) (mp : MoveParams),
      q.moveParams = some mp → moveParamsIsValid mp = true →
      2 ≤ sess.players.length → q.playerToken = "" →
      handleMoveCommand srv qname q sess =
        (txtResponse qname srv.ttl "ERROR: player token is required", srv)) := by
  constructor
  · intro sub hmove
    unfold parseSubdomain
    dsimp only
    split
    · rfl
    · rw [hmove]
      show (dottedParse sub _).playerToken = ""
      unfold dottedParse
      dsimp only
      split
      · split <;> rfl
      · split
        · rfl
        · split
          · split <;> rfl
          · rfl
  · intro srv qname q sess mp hmp hvalid hlen htok
    unfold handleMoveCommand
    rw [hmp]
    show (if moveParamsIsValid mp = false then _ else _) = _
    rw [if_neg (by rw [hvalid]; decide)]
    rw [if_neg (by omega), if_pos htok]

/-- Witness for `dottedMove_token_spec`: the concrete dotted move keeps
`PlayerToken` empty (here shown with its `-move-` gate failing) and the
handler demands a token even though one is written in the name. -/
theorem dottedMove_token_spec_witness :
    (parseSubdomain "abcd1234.move-1-2-tok12345").playerToken = "" ∧
    handleMoveCommand srvC4 "abcd1234.move-1-2-tok12345.game.local." qC10 sessC4 =
      (txtResponse "abcd1234.move-1-2-tok12345.game.local." 0
        "ERROR: player token is required", srvC4) ∧
    qC10.moveParams = some { row := 1, col := 2, playerToken := "tok12345" } := by
  refine ⟨dottedMove_token_spec.1 "abcd1234.move-1-2-tok12345" (by decide),
          dottedMove_token_spec.2 srvC4 "abcd1234.move-1-2-tok12345.game.local."
            qC10 sessC4 { row := 1, col := 2, playerToken := "tok12345" } rfl rfl
            (by decide) rfl,
          rfl⟩

end TTT
